import Mathlib

/-!
# Verification of the django-jwt-auth-service credential/token lifecycle

Shallow embedding of the password-reset token store, the refresh-token
blacklist registry, the composite rate throttles and the orchestrating
service/view layer of the repository, together with theorems settling the
frozen claims about the natural-language specification.

Source files embedded:
* `auth_service/utils/password_reset_service.py` (`PasswordResetService`)
* `accounts/services/auth_services.py` (`AuthenticationService.logout_user`,
  `PasswordResetBusinessService`)
* `accounts/views.py` (`AuthViewSet.logout/forgot_password/reset_password`)
* `auth_service/utils/throttles.py` (`EmailRateThrottle`)
* `auth_service/settings/base.py` (`SIMPLE_JWT`), `settings/{dev,prod,railway,test}.py`

The Redis client, the CPython `str`/`int` conversions and the base64url
encoding used by `secrets.token_urlsafe` are embedded as executable Lean
functions.  The SimpleJWT blacklist/rotation machinery is third-party library
code not present under `src/`; its model below is written from the
specification of the Refresh Token Registry and marked as such.
-/

namespace AuthService

/-! ## The Redis key-value store

The store is modelled as an association list of `key ↦ (value, ttl-seconds)`,
mirroring the subset of the `redis` client API the service uses:
`setex`, `get`, `delete`.  Expiry is represented by the recorded TTL; the
claims under verification never need to advance time, only to observe the TTL
that was written.
-/

/-- A Redis database: list of `(key, value, remaining ttl in seconds)`. -/
abbrev RedisStore := List (String × String × Nat)

/-- Embeds `redis_client.get(key)`: the value stored under `key`, if any. -/
def redisGet (s : RedisStore) (k : String) : Option String :=
  match s.find? (fun e => e.1 == k) with
  | some e => some e.2.1
  | none => none

/-- Embeds `redis_client.delete(key)`: remove every entry with key `k`. -/
def redisDel (s : RedisStore) (k : String) : RedisStore :=
  s.filter (fun e => e.1 != k)

/-- Embeds `redis_client.setex(name, time, value)`: bind `k` to `v` with TTL `ttl`,
replacing any previous binding. -/
def redisSetex (s : RedisStore) (k : String) (ttl : Nat) (v : String) : RedisStore :=
  (k, v, ttl) :: redisDel s k

theorem redisGet_setex_self (s : RedisStore) (k : String) (ttl : Nat) (v : String) :
    redisGet (redisSetex s k ttl v) k = some v := by
  simp [redisGet, redisSetex, List.find?]

theorem redisGet_del_self (s : RedisStore) (k : String) :
    redisGet (redisDel s k) k = none := by
  unfold redisGet redisDel
  have h : (s.filter (fun e => e.1 != k)).find? (fun e => e.1 == k) = none := by
    rw [List.find?_eq_none]
    intro e he
    have := List.of_mem_filter he
    simpa using this
  rw [h]

/-! ## Django users

The embedding keeps the fields of `accounts.User` that the token lifecycle
reads: primary key `id`, `email`, `is_active`.  The user table is a list of
rows; `.get(...)`/`.filter(...).exists()` become `List.find?` over the
corresponding predicate.
-/

/-- A row of the `accounts.User` table (the fields the reset flow reads). -/
structure DjangoUser where
  id : Nat
  email : String
  is_active : Bool
  deriving Repr, DecidableEq

/-- CPython `str.strip()` (also DRF's `trim_whitespace`): drop whitespace
from both ends.  (Written over the character list because core's
`String.trim` is well-founded recursion the kernel cannot evaluate.) -/
def pyStrip (s : String) : String :=
  (((s.data.dropWhile Char.isWhitespace).reverse.dropWhile Char.isWhitespace).reverse).asString

/-- CPython `str.lower()`. -/
def pyLower (s : String) : String :=
  (s.data.map Char.toLower).asString

/-- Embeds `User.objects.get(email__iexact=email.strip().lower(), is_active=True)`:
the query value is stripped then lowercased, and `iexact` compares
case-insensitively against the stored email. -/
def lookupActiveByEmail (db : List DjangoUser) (email : String) : Option DjangoUser :=
  db.find? (fun u => pyLower u.email == pyLower (pyStrip email) && u.is_active)

/-- Embeds `User.objects.get(id=i, is_active=True)`. -/
def getActiveUserById (db : List DjangoUser) (i : Nat) : Option DjangoUser :=
  db.find? (fun u => u.id == i && u.is_active)

/-! ## CPython decimal conversions

`PasswordResetService` stores `str(user.id)` and reads it back with
`int(user_id.decode())`.  `strOfNat` embeds CPython's decimal `str` on
non-negative integers; `pyInt?` embeds `int(...)` on the strings this store
can contain: it succeeds exactly on non-empty all-digit strings and models
`ValueError` as `none` (sign/whitespace forms never arise here).
-/

/-- Decimal digits with an explicit fuel bound, so that the recursion is
structural and the kernel can evaluate it on closed inputs. -/
def natDigitsF : Nat → Nat → List Nat
  | 0, _ => []
  | fuel + 1, n => if n < 10 then [n] else natDigitsF fuel (n / 10) ++ [n % 10]

/-- Decimal digits of `n`, most significant first (`n + 1` fuel always
suffices since `n / 10 < n`). -/
def natDigits (n : Nat) : List Nat :=
  natDigitsF (n + 1) n

/-- CPython `str(n)` for a non-negative `n`: its decimal numeral. -/
def strOfNat (n : Nat) : String :=
  ((natDigits n).map (fun d => Char.ofNat (48 + d))).asString

/-- Value of an ASCII decimal digit, `none` on any other character. -/
def digitVal? (c : Char) : Option Nat :=
  if 48 ≤ c.toNat ∧ c.toNat ≤ 57 then some (c.toNat - 48) else none

/-- CPython `int(s)` restricted to the store's value language: a non-empty
string of decimal digits parses to its value, anything else raises
`ValueError` (modelled as `none`). -/
def pyInt? (s : String) : Option (Nat) :=
  match s.data.mapM digitVal? with
  | some ds => if ds.isEmpty then none else some (ds.foldl (fun a d => a * 10 + d) 0)
  | none => none

/-- Any sufficient fuel computes the same digit list. -/
theorem natDigitsF_fuel_irrel : ∀ fuel₁ fuel₂ n, n < fuel₁ → n < fuel₂ →
    natDigitsF fuel₁ n = natDigitsF fuel₂ n := by
  intro fuel₁
  induction fuel₁ with
  | zero => intro fuel₂ n h₁; omega
  | succ f₁ ih =>
    intro fuel₂ n h₁ h₂
    cases fuel₂ with
    | zero => omega
    | succ f₂ =>
      unfold natDigitsF
      by_cases h : n < 10
      · rw [if_pos h, if_pos h]
      · rw [if_neg h, if_neg h, ih f₂ (n / 10) (by omega) (by omega)]

theorem natDigits_lt_ten (n : Nat) : ∀ d ∈ natDigits n, d < 10 := by
  suffices h : ∀ fuel n, n < fuel → ∀ d ∈ natDigitsF fuel n, d < 10 from
    h (n + 1) n (by omega)
  intro fuel
  induction fuel with
  | zero => intro n hn; omega
  | succ f ih =>
    intro n hn d hd
    unfold natDigitsF at hd
    by_cases h : n < 10
    · rw [if_pos h] at hd
      simp at hd
      omega
    · rw [if_neg h] at hd
      simp at hd
      rcases hd with hd | hd
      · exact ih (n / 10) (by omega) d hd
      · omega

theorem natDigits_ne_nil (n : Nat) : natDigits n ≠ [] := by
  unfold natDigits natDigitsF
  split <;> simp

theorem natDigits_foldl (n : Nat) : ∀ a : Nat,
    (natDigits n).foldl (fun x d => x * 10 + d) a = a * 10 ^ (natDigits n).length + n := by
  suffices h : ∀ fuel n, n < fuel → ∀ a : Nat,
      (natDigitsF fuel n).foldl (fun x d => x * 10 + d) a
        = a * 10 ^ (natDigitsF fuel n).length + n from
    h (n + 1) n (by omega)
  intro fuel
  induction fuel with
  | zero => intro n hn; omega
  | succ f ih =>
    intro n hn a
    unfold natDigitsF
    by_cases h : n < 10
    · rw [if_pos h]
      simp only [List.foldl_cons, List.foldl_nil, List.length_cons, List.length_nil, pow_one]
      omega
    · rw [if_neg h]
      simp only [List.foldl_append, List.foldl_cons, List.foldl_nil, List.length_append,
        List.length_cons, List.length_nil]
      rw [ih (n / 10) (by omega) a]
      calc (a * 10 ^ (natDigitsF f (n / 10)).length + n / 10) * 10 + n % 10
          = a * (10 ^ (natDigitsF f (n / 10)).length * 10) + (n / 10 * 10 + n % 10) := by ring
        _ = a * 10 ^ ((natDigitsF f (n / 10)).length + (0 + 1)) + n := by
            rw [Nat.zero_add, pow_succ, Nat.div_add_mod']

theorem digitVal?_ofNat : ∀ d < 10, digitVal? (Char.ofNat (48 + d)) = some d := by decide

theorem mapM_digitVal_map (ds : List Nat) (h : ∀ d ∈ ds, d < 10) :
    (ds.map (fun d => Char.ofNat (48 + d))).mapM digitVal? = some ds := by
  induction ds with
  | nil => rfl
  | cons d tl ih =>
    have hd : d < 10 := h d (by simp)
    rw [List.map_cons, List.mapM_cons, digitVal?_ofNat d hd,
      ih (fun x hx => h x (by simp [hx]))]
    rfl

/-- A decimal numeral is never the empty string, so `str(user.id)` always
passes the falsy check of `verify_and_consume_token`. -/
theorem strOfNat_ne_empty (n : Nat) : strOfNat n ≠ "" := by
  intro h
  have hd : (natDigits n).map (fun d => Char.ofNat (48 + d)) = ([] : List Char) :=
    congrArg String.data h
  rw [List.map_eq_nil_iff] at hd
  exact natDigits_ne_nil n hd

/-- The decimal round trip the reset store relies on:
`int(str(n)) = n`. -/
theorem pyInt?_strOfNat (n : Nat) : pyInt? (strOfNat n) = some n := by
  have h1 : (strOfNat n).data = (natDigits n).map (fun d => Char.ofNat (48 + d)) := rfl
  have hne : (natDigits n).isEmpty = false := by
    cases hdn : natDigits n with
    | nil => exact absurd hdn (natDigits_ne_nil n)
    | cons a l => rfl
  unfold pyInt?
  rw [h1, mapM_digitVal_map (natDigits n) (natDigits_lt_ten n)]
  simp only [hne, Bool.false_eq_true, if_false]
  rw [natDigits_foldl n 0]
  simp

/-! ## `secrets.token_urlsafe`

CPython's `secrets.token_urlsafe(n)` is
`base64.urlsafe_b64encode(os.urandom(n)).rstrip(b'=').decode('ascii')`.
The embedding takes the `n` random bytes as an explicit argument (a list of
naturals `< 256`) and performs the standard base64 encoding with the URL-safe
alphabet `A–Z a–z 0–9 - _`, dropping the `=` padding.
-/

/-- The URL-safe base64 alphabet: index `n < 64` to its character. -/
def b64Char (n : Nat) : Char :=
  if n < 26 then Char.ofNat (65 + n)
  else if n < 52 then Char.ofNat (97 + (n - 26))
  else if n < 62 then Char.ofNat (48 + (n - 52))
  else if n = 62 then '-'
  else '_'

/-- Regroup a byte sequence into base64 sextets.  A trailing group of one or
two bytes yields two or three sextets (the `=` padding that base64 would add
is stripped by `token_urlsafe`). -/
def b64Sextets : List Nat → List Nat
  | [] => []
  | [a] => [a / 4, a % 4 * 16]
  | [a, b] => [a / 4, a % 4 * 16 + b / 16, b % 16 * 4]
  | a :: b :: c :: rest =>
      a / 4 :: (a % 4 * 16 + b / 16) :: (b % 16 * 4 + c / 64) :: c % 64 :: b64Sextets rest

/-- Embeds `secrets.token_urlsafe` on explicit random bytes. -/
def tokenUrlsafe (bytes : List Nat) : String :=
  ((b64Sextets bytes).map b64Char).asString

/-- Inverse regrouping: recover the bytes from the sextets. -/
def b64Unsextets : List Nat → List Nat
  | [] => []
  | [_] => []
  | [s0, s1] => [s0 * 4 + s1 / 16]
  | [s0, s1, s2] => [s0 * 4 + s1 / 16, s1 % 16 * 16 + s2 / 4]
  | s0 :: s1 :: s2 :: s3 :: rest =>
      (s0 * 4 + s1 / 16) :: (s1 % 16 * 16 + s2 / 4) :: (s2 % 4 * 64 + s3) :: b64Unsextets rest

theorem b64Unsextets_sextets (l : List Nat) (h : ∀ x ∈ l, x < 256) :
    b64Unsextets (b64Sextets l) = l := by
  induction l using b64Sextets.induct with
  | case1 => rfl
  | case2 a =>
    have ha : a < 256 := h a (by simp)
    simp only [b64Sextets, b64Unsextets]
    congr 1
    omega
  | case3 a b =>
    have ha : a < 256 := h a (by simp)
    have hb : b < 256 := h b (by simp)
    simp only [b64Sextets, b64Unsextets]
    congr 1
    · omega
    · congr 1
      omega
  | case4 a b c rest ih =>
    have ha : a < 256 := h a (by simp)
    have hb : b < 256 := h b (by simp)
    have hc : c < 256 := h c (by simp)
    have hrest : ∀ x ∈ rest, x < 256 := fun x hx => h x (by simp [hx])
    simp only [b64Sextets, b64Unsextets]
    congr 1
    · omega
    · congr 1
      · omega
      · congr 1
        · omega
        · exact ih hrest

theorem b64Sextets_lt (l : List Nat) (h : ∀ x ∈ l, x < 256) :
    ∀ s ∈ b64Sextets l, s < 64 := by
  induction l using b64Sextets.induct with
  | case1 => intro s hs; simp [b64Sextets] at hs
  | case2 a =>
    intro s hs
    have ha : a < 256 := h a (by simp)
    simp [b64Sextets] at hs
    omega
  | case3 a b =>
    intro s hs
    have ha : a < 256 := h a (by simp)
    have hb : b < 256 := h b (by simp)
    simp [b64Sextets] at hs
    omega
  | case4 a b c rest ih =>
    intro s hs
    have ha : a < 256 := h a (by simp)
    have hb : b < 256 := h b (by simp)
    have hc : c < 256 := h c (by simp)
    simp [b64Sextets] at hs
    rcases hs with hs | hs | hs | hs | hs
    · omega
    · omega
    · omega
    · omega
    · exact ih (fun x hx => h x (by simp [hx])) s hs

theorem b64Char_inj : ∀ m < 64, ∀ n < 64, b64Char m = b64Char n → m = n := by decide

theorem map_b64Char_inj (l1 l2 : List Nat) (h1 : ∀ x ∈ l1, x < 64) (h2 : ∀ x ∈ l2, x < 64)
    (heq : l1.map b64Char = l2.map b64Char) : l1 = l2 := by
  induction l1 generalizing l2 with
  | nil => cases l2 with
    | nil => rfl
    | cons b tl2 => simp at heq
  | cons a tl1 ih =>
    cases l2 with
    | nil => simp at heq
    | cons b tl2 =>
      simp only [List.map_cons, List.cons.injEq] at heq
      have hab : a = b :=
        b64Char_inj a (h1 a (by simp)) b (h2 b (by simp)) heq.1
      have htl : tl1 = tl2 :=
        ih tl2 (fun x hx => h1 x (by simp [hx])) (fun x hx => h2 x (by simp [hx])) heq.2
      rw [hab, htl]

/-- The whole encoding is injective on byte sequences of equal length: two
different 32-byte random draws can never collide on the same token, so a
token carries the full 256 bits of its seed. -/
theorem tokenUrlsafe_inj (l1 l2 : List Nat) (h1 : ∀ x ∈ l1, x < 256) (h2 : ∀ x ∈ l2, x < 256)
    (heq : tokenUrlsafe l1 = tokenUrlsafe l2) : l1 = l2 := by
  have hdata : ((b64Sextets l1).map b64Char) = ((b64Sextets l2).map b64Char) := by
    have : ((b64Sextets l1).map b64Char).asString.data
        = ((b64Sextets l2).map b64Char).asString.data := by
      rw [show ((b64Sextets l1).map b64Char).asString = tokenUrlsafe l1 from rfl, heq]
      rfl
    exact this
  have hsex : b64Sextets l1 = b64Sextets l2 :=
    map_b64Char_inj _ _ (b64Sextets_lt l1 h1) (b64Sextets_lt l2 h2) hdata
  calc l1 = b64Unsextets (b64Sextets l1) := (b64Unsextets_sextets l1 h1).symm
    _ = b64Unsextets (b64Sextets l2) := by rw [hsex]
    _ = l2 := b64Unsextets_sextets l2 h2

/-- Membership in the URL-safe alphabet. -/
def urlSafeChar (c : Char) : Bool :=
  (65 ≤ c.toNat && c.toNat ≤ 90) || (97 ≤ c.toNat && c.toNat ≤ 122) ||
  (48 ≤ c.toNat && c.toNat ≤ 57) || c == '-' || c == '_'

theorem b64Char_urlSafe : ∀ n < 64, urlSafeChar (b64Char n) = true := by decide

/-- Every character of a generated token is URL-safe. -/
theorem tokenUrlsafe_chars (bytes : List Nat) (h : ∀ x ∈ bytes, x < 256) :
    ∀ c ∈ (tokenUrlsafe bytes).data, urlSafeChar c = true := by
  intro c hc
  have hc' : c ∈ (b64Sextets bytes).map b64Char := hc
  rcases List.mem_map.mp hc' with ⟨s, hs, rfl⟩
  exact b64Char_urlSafe s (b64Sextets_lt bytes h s hs)

theorem b64Sextets_length (l : List Nat) :
    (b64Sextets l).length =
      l.length / 3 * 4 + (if l.length % 3 = 0 then 0 else l.length % 3 + 1) := by
  induction l using b64Sextets.induct with
  | case1 => rfl
  | case2 a => simp [b64Sextets]
  | case3 a b => simp [b64Sextets]
  | case4 a b c rest ih =>
    simp only [b64Sextets, List.length_cons, ih]
    have h3 : (rest.length + 1 + 1 + 1) / 3 = rest.length / 3 + 1 := by omega
    have h3' : (rest.length + 1 + 1 + 1) % 3 = rest.length % 3 := by omega
    rw [h3, h3']
    split <;> omega

/-! ## `PasswordResetService` (`auth_service/utils/password_reset_service.py`)

The service's Redis handle may be `None` when the connection failed at
construction time; the flag `redisUp` embeds `self.redis_client is not None`.
The random bytes drawn by `secrets.token_urlsafe(32)` are an explicit
argument.
-/

/-- Embeds `self.token_prefix_str`. -/
def token_prefix_str : String := "password_reset:"

/-- Embeds `self.token_ttl` (10 minutes in seconds). -/
def token_ttl : Nat := 600

/-- Embeds `generate_reset_token` raising `User.DoesNotExist`. -/
inductive GenerateError
  | userDoesNotExist
  deriving Repr, DecidableEq

/-- Embeds `PasswordResetService.generate_reset_token` (lines 31–67): look up the
active user by case-insensitive email, draw `secrets.token_urlsafe(32)`, and
— only if the Redis client exists — `setex` the key
`password_reset:<token>` to `str(user.id)` with TTL 600.  When the client is
`None` the token is still returned, with only a warning logged. -/
def generate_reset_token (redisUp : Bool) (db : List DjangoUser) (store : RedisStore)
    (email : String) (randomBytes : List Nat) : Except GenerateError (String × RedisStore) :=
  match lookupActiveByEmail db email with
  | none => .error .userDoesNotExist
  | some user =>
    let token := tokenUrlsafe randomBytes
    if redisUp then
      .ok (token, redisSetex store (token_prefix_str ++ token) token_ttl (strOfNat user.id))
    else
      .ok (token, store)

/-- Embeds `PasswordResetService.verify_and_consume_token` (lines 69–105): `None`
client short-circuits to `None`; then `get` the key, and the falsy check
`if not user_id:` (line 88) returns `None` for a missing key AND for an
empty stored value `b""` — in both cases without deleting; otherwise parse
the stored id with `int(...)` and fetch the active user, then `delete` the
key — both on success and on a dangling value
(`User.DoesNotExist`/`ValueError`).  Returns the user (or `None`) together
with the store left behind. -/
def verify_and_consume_token (redisUp : Bool) (db : List DjangoUser) (store : RedisStore)
    (token : String) : Option DjangoUser × RedisStore :=
  if !redisUp then (none, store)
  else
    let key := token_prefix_str ++ token
    match redisGet store key with
    | none => (none, store)
    | some v =>
      if v = "" then (none, store)
      else match pyInt? v with
      | some i =>
        match getActiveUserById db i with
        | some user => (some user, redisDel store key)
        | none => (none, redisDel store key)
      | none => (none, redisDel store key)

/-- The scan loop of `invalidate_user_tokens`: for each key, a non-empty
value is parsed with `int(...)` and the entry deleted on a match; a value
that `int(...)` cannot parse raises `ValueError` out of the loop (there is
no handler), leaving the deletions already made in place. -/
def invalidateLoop (user_id : Nat) : List String → Nat → RedisStore →
    Except String Nat × RedisStore
  | [], cnt, s => (.ok cnt, s)
  | k :: ks, cnt, s =>
    match redisGet s k with
    | none => invalidateLoop user_id ks cnt s
    | some v =>
      if v = "" then invalidateLoop user_id ks cnt s
      else match pyInt? v with
        | none => (.error "ValueError", s)
        | some i =>
          if i = user_id then invalidateLoop user_id ks (cnt + 1) (redisDel s k)
          else invalidateLoop user_id ks cnt s

/-- Embeds `PasswordResetService.invalidate_user_tokens` (lines 107–130): scan all
`password_reset:*` keys and run the deletion loop; with no Redis client the
count is `0`. -/
def invalidate_user_tokens (redisUp : Bool) (store : RedisStore) (user_id : Nat) :
    Except String Nat × RedisStore :=
  if !redisUp then (.ok 0, store)
  else
    invalidateLoop user_id
      ((store.filter (fun e => token_prefix_str.data.isPrefixOf e.1.data)).map (fun e => e.1))
      0 store

/-! ## `PasswordResetBusinessService` (`accounts/services/auth_services.py`) -/

/-- The JSON object `initiate_password_reset` builds.  The `token` field is
`Option`al so that its presence in the body is part of the statement; the
source always sets it (`"token": token,  # Always include token as per
requirements`). -/
structure ForgotPasswordData where
  message : String
  email : String
  token : Option String
  note : String
  deriving Repr, DecidableEq

/-- Embeds `PasswordResetBusinessService.initiate_password_reset` (lines 202–234):
delegate to `generate_reset_token`; wrap any exception with business context;
on success return the response dict, token always included. -/
def initiate_password_reset (redisUp : Bool) (db : List DjangoUser) (store : RedisStore)
    (email : String) (randomBytes : List Nat) :
    Except String (ForgotPasswordData × RedisStore) :=
  match generate_reset_token redisUp db store email randomBytes with
  | .error .userDoesNotExist =>
      .error "Failed to initiate password reset: No active user found with this email address"
  | .ok (token, store') =>
      .ok ({ message := "Password reset token generated successfully"
             email := email
             token := some token
             note := "In production, this token would typically be sent via email instead of returned in response" },
           store')

/-- The success payload of `complete_password_reset`. -/
structure ResetCompleteData where
  message : String
  user_id : Nat
  email : String
  deriving Repr, DecidableEq

/-- Embeds `PasswordResetBusinessService.complete_password_reset` (lines 236–286):
consume the token; a `None` user raises
`"Invalid or expired password reset token"`; otherwise set the new password
(`user.set_password`/`save`, which do not touch the token store and whose
hash the embedding does not track), invalidate the user's remaining tokens
and return `{message, user_id, email}`.  Every exception is re-raised
wrapped in `"Failed to complete password reset: ..."`; the store keeps any
mutation already performed. -/
def complete_password_reset (redisUp : Bool) (db : List DjangoUser) (store : RedisStore)
    (token : String) (new_password : String) :
    Except String ResetCompleteData × RedisStore :=
  match verify_and_consume_token redisUp db store token with
  | (none, store') =>
      (.error "Failed to complete password reset: Invalid or expired password reset token",
       store')
  | (some user, store') =>
      match invalidate_user_tokens redisUp store' user.id with
      | (.error e, store'') => (.error ("Failed to complete password reset: " ++ e), store'')
      | (.ok _, store'') =>
          (.ok { message := "Password reset completed successfully"
                 user_id := user.id
                 email := user.email },
           store'')

/-! ## HTTP layer (`accounts/views.py`)

Each endpoint is embedded from the point where the request body has been
parsed into its fields.  `HttpResponse` keeps the two observables the claims
talk about: the HTTP status and the envelope `responseCode`.
-/

/-- Status code and envelope `responseCode` of a response. -/
structure HttpResponse where
  status : Nat
  responseCode : String
  deriving Repr, DecidableEq

/-- Body of `POST /auth/reset-password`; `none` marks an absent field. -/
structure ResetPasswordBody where
  token : Option String
  new_password : Option String
  confirm_password : Option String
  deriving Repr, DecidableEq

/-- Embeds `ResetPasswordSerializer`: all three fields required; `token` is a
`CharField` (trimmed, non-blank); the two password fields have
`min_length=8, trim_whitespace=False` and must match
(`validate`).  `validate_new_password` calls Django's `validate_password`,
a no-op here because `AUTH_PASSWORD_VALIDATORS` is not configured anywhere
in `auth_service/settings/`.  Returns the validated data. -/
def resetPasswordValidate (b : ResetPasswordBody) : Option (String × String × String) :=
  match b.token, b.new_password, b.confirm_password with
  | some t, some np, some cp =>
    let t' := pyStrip t
    if t' = "" then none
    else if np.length < 8 then none
    else if cp.length < 8 then none
    else if np ≠ cp then none
    else some (t', np, cp)
  | _, _, _ => none

/-- Embeds `AuthViewSet.reset_password` (views.py lines 211–245): 400 `"07"` on
serializer failure or missing token/new_password; otherwise delegate to
`complete_password_reset`, 200 `"00"` on success and — for every exception,
including the invalid/expired-token one — 500 `"12"`. -/
def reset_password_view (redisUp : Bool) (db : List DjangoUser) (store : RedisStore)
    (body : ResetPasswordBody) : HttpResponse × RedisStore :=
  match resetPasswordValidate body with
  | none => (⟨400, "07"⟩, store)
  | some (token, new_password, _) =>
    if token = "" || new_password = "" then (⟨400, "07"⟩, store)
    else
      match complete_password_reset redisUp db store token new_password with
      | (.ok _, store') => (⟨200, "00"⟩, store')
      | (.error _, store') => (⟨500, "12"⟩, store')

/-- Body of `POST /auth/forgot-password`. -/
structure ForgotPasswordBody where
  email : Option String
  deriving Repr, DecidableEq

/-- Embeds `ForgotPasswordSerializer`: required `EmailField` plus `validate_email`,
which strips/lowercases the value and requires an active user with that
email (`User.objects.filter(email__iexact=..., is_active=True).exists()`);
the upstream RFC-address format check of `EmailField` is elided into the
same rejection branch.  Returns the normalized email `validate_email`
returns. -/
def forgotPasswordValidate (db : List DjangoUser) (b : ForgotPasswordBody) : Option String :=
  match b.email with
  | none => none
  | some e =>
    let norm := pyLower (pyStrip e)
    if norm = "" then none
    else if db.any (fun u => pyLower u.email == norm && u.is_active) then some norm
    else none

/-- Embeds `AuthViewSet.forgot_password` (views.py lines 176–209): 400 `"07"` on
serializer failure or missing email, otherwise delegate to
`initiate_password_reset`; 200 `"00"` with its data on success, 500 `"10"`
on any exception. -/
def forgot_password_view (redisUp : Bool) (db : List DjangoUser) (store : RedisStore)
    (body : ForgotPasswordBody) (randomBytes : List Nat) :
    HttpResponse × Option ForgotPasswordData × RedisStore :=
  match forgotPasswordValidate db body with
  | none => (⟨400, "07"⟩, none, store)
  | some email =>
    if email = "" then (⟨400, "07"⟩, none, store)
    else
      match initiate_password_reset redisUp db store email randomBytes with
      | .ok (data, store') => (⟨200, "00"⟩, some data, store')
      | .error _ => (⟨500, "10"⟩, none, store)

/-! ## Logout (`AuthenticationService.logout_user`, views.py `logout`)

`logout_user` wraps the whole blacklist attempt in nested `try`/`except`
blocks whose every arm falls through to `return True`.  The embedding makes
the outcome of each fallible sub-step an explicit parameter, so the theorem
can quantify over all of them: decoding the JWT, the primary
outstanding-token/blacklist database write, and the fallback blacklist
attempt.
-/

/-- Outcome of one fallible logout sub-step (`.raised` = the Python call
raised an exception). -/
inductive StepOutcome
  | succeeded
  | raised
  deriving Repr, DecidableEq

/-- Environment of one `logout_user` call: result of
`jwt.decode(...).get('jti')` (`.error` = decode raised, `.ok none` = no
`jti` claim), of the `OutstandingToken`/`BlacklistedToken` write, and of the
method-2 fallback. -/
structure LogoutEnv where
  jwtDecodeJti : Except String (Option String)
  blacklistWrite : StepOutcome
  fallbackBlacklist : StepOutcome
  deriving Repr

/-- Embeds `AuthenticationService.logout_user` (auth_services.py lines 131–182):
method 1 decodes the token and blacklists via the ORM; if it raises, method
2 tries the `RefreshToken` fallback and swallows its failure (`pass`); the
outer handler also returns `True`.  Every path returns `True`. -/
def logout_user (env : LogoutEnv) : Bool :=
  match env.jwtDecodeJti with
  | .ok (some _) =>
    match env.blacklistWrite with
    | .succeeded => true
    | .raised =>
      match env.fallbackBlacklist with
      | .succeeded => true
      | .raised => true
  | .ok none => true
  | .error _ =>
    match env.fallbackBlacklist with
    | .succeeded => true
    | .raised => true

/-- Embeds `AuthViewSet.logout` (views.py lines 129–158), after authentication:
validate the body (`LogoutSerializer`: required `refresh` CharField), 400
`"07"` when it is missing or blank, else 200 `"00"` when `logout_user`
returns `True` and 500 `"10"` otherwise. -/
def logout_view (refresh : Option String) (env : LogoutEnv) : HttpResponse :=
  match refresh with
  | none => ⟨400, "07"⟩
  | some r =>
    if pyStrip r = "" then ⟨400, "07"⟩
    else if logout_user env then ⟨200, "00"⟩
    else ⟨500, "10"⟩

/-! ## Rate throttles (`auth_service/utils/throttles.py`)

`EmailRateThrottle.get_cache_key` (lines 12–35).  The request is reduced to
the three observables the method reads: the authenticated user's email (if
any), the `email` field of the body (if any), and the network-address
identity DRF's `AnonRateThrottle` would use.  `hashlib.md5(...).hexdigest()`
is an external hash, passed in as a function parameter `md5hex`.
-/

/-- The fields of the request `get_cache_key` reads. -/
structure ThrottleRequest where
  userEmail : Option String
  dataEmail : Option String
  addr : String
  deriving Repr, DecidableEq

/-- DRF `SimpleRateThrottle.cache_format % {'scope': .., 'ident': ..}`. -/
def cache_format (scope ident : String) : String :=
  "throttle_" ++ scope ++ "_" ++ ident

/-- Embeds `AnonRateThrottle.get_cache_key`: no throttling for authenticated users,
else the scope/address key. -/
def anon_get_cache_key (scope : String) (req : ThrottleRequest) : Option String :=
  match req.userEmail with
  | some _ => none
  | none => some (cache_format scope req.addr)

/-- Embeds `EmailRateThrottle.get_cache_key` (throttles.py lines 12–35):
authenticated users are keyed by their account email; anonymous requests by
`request.data.get('email')` lowercased and stripped; a missing (or falsy,
i.e. empty) email falls back to `super().get_cache_key`, the address-based
key.  The identity is always passed through `md5hex` before entering the
key. -/
def email_get_cache_key (md5hex : String → String) (scope : String)
    (req : ThrottleRequest) : Option String :=
  match req.userEmail with
  | some e => some (cache_format scope (md5hex e))
  | none =>
    match req.dataEmail with
    | some email =>
      if email = "" then anon_get_cache_key scope req
      else some (cache_format scope (md5hex (pyStrip (pyLower email))))
    | none => anon_get_cache_key scope req

/-- DRF `SimpleRateThrottle.allow_request`, with the pruned request history
abstracted as a count per key: a `none` key disables throttling, otherwise
the request is allowed iff the window count is below the ceiling. -/
def throttleAllow (hist : String → Nat) (num_requests : Nat) (key : Option String) : Bool :=
  match key with
  | none => true
  | some k => hist k < num_requests

/-! ## Settings profiles (`auth_service/settings/`) -/

/-- The four settings modules of the deployment matrix. -/
inductive SettingsProfile
  | dev
  | prod
  | railway
  | test
  deriving Repr, DecidableEq

/-- The `DEBUG` flag each settings module sets (`dev.py` line 4: `True`;
`prod.py` line 6, `railway.py` line 13, `test.py` line 4: `False`). -/
def debugFlag : SettingsProfile → Bool
  | .dev => true
  | .prod => false
  | .railway => false
  | .test => false

/-! ## Refresh-token registry

Modelled from the spec: the rotation and blacklist semantics live in the
`rest_framework_simplejwt` library (its `TokenRefreshSerializer`,
`BlacklistMixin` and `token_blacklist` app), which is not part of `src/`;
`accounts/serializers.py` only subclasses it unchanged.  The model follows
spec §4.2 (Refresh Token Registry) and §4.5, driven by the `SIMPLE_JWT`
flags that ARE in `src/auth_service/settings/base.py`.
-/

/-- Embeds `SIMPLE_JWT["ROTATE_REFRESH_TOKENS"]` (settings/base.py line 168). -/
def ROTATE_REFRESH_TOKENS : Bool := true

/-- Embeds `SIMPLE_JWT["BLACKLIST_AFTER_ROTATION"]` (settings/base.py line 169). -/
def BLACKLIST_AFTER_ROTATION : Bool := true

/-- Caller-facing failures of the token endpoints (spec §7 taxonomy). -/
inductive AuthError
  | authenticationFailed
  | dependencyUnavailable
  deriving Repr, DecidableEq

/-- Modelled from the spec: the registry state — outstanding refresh-token
`jti`s and the blacklist. -/
structure TokenRegistry where
  outstanding : List String
  blacklisted : List String
  deriving Repr, DecidableEq

/-- Modelled from the spec: `isBlacklisted(jti)`. -/
def isBlacklisted (r : TokenRegistry) (jti : String) : Bool :=
  r.blacklisted.contains jti

/-- Modelled from the spec: `blacklist(jti)`, idempotent, insert-only. -/
def blacklistJti (r : TokenRegistry) (jti : String) : TokenRegistry :=
  { r with blacklisted := if jti ∈ r.blacklisted then r.blacklisted else jti :: r.blacklisted }

/-- Modelled from the spec: `rotate(oldToken)` under the repository's
`SIMPLE_JWT` flags — fail closed when the registry store is down, reject a
blacklisted `jti` with `AuthenticationFailed`, otherwise register the new
`jti` and blacklist the old one. -/
def rotate_refresh (storeUp : Bool) (r : TokenRegistry) (oldJti newJti : String) :
    Except AuthError (TokenRegistry × String) :=
  if !storeUp then .error .dependencyUnavailable
  else if isBlacklisted r oldJti then .error .authenticationFailed
  else
    let r1 := { r with outstanding := newJti :: r.outstanding }
    let r2 := if ROTATE_REFRESH_TOKENS && BLACKLIST_AFTER_ROTATION
              then blacklistJti r1 oldJti else r1
    .ok (r2, newJti)

/-- Modelled from the spec: the operations the service ever performs on the
registry. -/
inductive RegistryOp
  | register (jti : String)
  | rotate (oldJti newJti : String)
  | logout (jti : String)

/-- One registry operation; a rejected rotation leaves the state unchanged. -/
def applyOp (r : TokenRegistry) : RegistryOp → TokenRegistry
  | .register j => { r with outstanding := j :: r.outstanding }
  | .rotate o n =>
    match rotate_refresh true r o n with
    | .ok (r', _) => r'
    | .error _ => r
  | .logout j => blacklistJti r j

/-- A trace of registry operations. -/
def applyOps (r : TokenRegistry) (ops : List RegistryOp) : TokenRegistry :=
  ops.foldl applyOp r

/-! ## Interleaved execution of `verify_and_consume_token`

`verify_and_consume_token` makes two separate Redis round trips —
`self.redis_client.get(redis_key)` (line 88) and
`self.redis_client.delete(redis_key)` (line 99) — with only local
computation in between.  A call is therefore a small state machine whose
atomic actions against the shared store are exactly those two calls; running
two machines under an explicit schedule exhibits every interleaving the
store can see. -/

/-- Progress of one in-flight `verify_and_consume_token(token)` call. -/
inductive ConsumePhase
  | ready
  | fetched (v : Option String)
  | finished (result : Option Nat)
  deriving Repr, DecidableEq

/-- One atomic step of a call: `ready → fetched` performs the `get`;
`fetched → finished` performs the local falsy check and parse/lookup and,
past the falsy check, the `delete`.  A finished call does not move. -/
def consumeStep (db : List DjangoUser) (token : String) :
    RedisStore × ConsumePhase → RedisStore × ConsumePhase
  | (store, .ready) => (store, .fetched (redisGet store (token_prefix_str ++ token)))
  | (store, .fetched none) => (store, .finished none)
  | (store, .fetched (some v)) =>
    if v = "" then (store, .finished none)
    else match pyInt? v with
    | some i =>
      match getActiveUserById db i with
      | some user => (redisDel store (token_prefix_str ++ token), .finished (some user.id))
      | none => (redisDel store (token_prefix_str ++ token), .finished none)
    | none => (redisDel store (token_prefix_str ++ token), .finished none)
  | (store, .finished r) => (store, .finished r)

/-- Run two concurrent calls on the same token under a schedule:
`true` steps the first caller, `false` the second. -/
def runConsume2 (db : List DjangoUser) (token : String) :
    List Bool → RedisStore × ConsumePhase × ConsumePhase →
    RedisStore × ConsumePhase × ConsumePhase
  | [], st => st
  | b :: rest, (store, p1, p2) =>
    if b then
      let (s', p1') := consumeStep db token (store, p1)
      runConsume2 db token rest (s', p1', p2)
    else
      let (s', p2') := consumeStep db token (store, p2)
      runConsume2 db token rest (s', p1, p2')

/-! ## Helper lemmas -/

/-- Sequential fidelity of the interleaving model: one caller stepped twice
in isolation computes exactly `verify_and_consume_token`. -/
theorem consumeStep_twice_eq_seq (db : List DjangoUser) (store : RedisStore) (token : String) :
    consumeStep db token (consumeStep db token (store, .ready))
      = ((verify_and_consume_token true db store token).2,
         .finished ((verify_and_consume_token true db store token).1.map DjangoUser.id)) := by
  unfold verify_and_consume_token
  simp only [Bool.not_true, Bool.false_eq_true, if_false]
  unfold consumeStep
  cases hget : redisGet store (token_prefix_str ++ token) with
  | none => simp [consumeStep, hget]
  | some v =>
    by_cases hv : v = ""
    · simp [consumeStep, hget, hv]
    · cases hint : pyInt? v with
      | none => simp [consumeStep, hget, hv, hint]
      | some i =>
        cases hu : getActiveUserById db i with
        | none => simp [consumeStep, hget, hv, hint, hu]
        | some u => simp [consumeStep, hget, hv, hint, hu]

/-- Every registry operation only ever adds to the blacklist. -/
theorem blacklist_mono_applyOp (r : TokenRegistry) (op : RegistryOp) :
    ∀ j ∈ r.blacklisted, j ∈ (applyOp r op).blacklisted := by
  intro j hj
  cases op with
  | register jti => exact hj
  | logout jti =>
    unfold applyOp blacklistJti
    dsimp only
    split
    · exact hj
    · exact List.mem_cons_of_mem _ hj
  | rotate o n =>
    unfold applyOp rotate_refresh
    dsimp only
    by_cases hb : isBlacklisted r o
    · simp [hb]
      exact hj
    · simp [hb, ROTATE_REFRESH_TOKENS, BLACKLIST_AFTER_ROTATION]
      unfold blacklistJti
      dsimp only
      split
      · exact hj
      · exact List.mem_cons_of_mem _ hj

/-- Blacklist monotonicity along an arbitrary trace. -/
theorem blacklist_mono_applyOps (ops : List RegistryOp) :
    ∀ (r : TokenRegistry) (j : String), j ∈ r.blacklisted → j ∈ (applyOps r ops).blacklisted := by
  induction ops with
  | nil => intro r j hj; exact hj
  | cons op rest ih =>
    intro r j hj
    exact ih (applyOp r op) j (blacklist_mono_applyOp r op j hj)

/-- A blacklisted `jti` makes `rotate` fail with `AuthenticationFailed`. -/
theorem rotate_blacklisted_fails (r : TokenRegistry) (jti newJti : String)
    (h : jti ∈ r.blacklisted) :
    rotate_refresh true r jti newJti = .error .authenticationFailed := by
  unfold rotate_refresh
  have hb : isBlacklisted r jti = true := List.elem_iff.mpr h
  simp [hb]

/-! ## The claims -/

/-- Claim C1.  The claim states that `verify_and_consume_token` reads and
deletes the token as ONE atomic store operation, so that among concurrent
consume calls on the same token exactly one returns the user.  The code
performs `redis_client.get` (line 88) and `redis_client.delete` (line 99) as
two separate round trips; under the schedule get₁, get₂, delete₁, delete₂
both callers observe the stored value and both return user 1: two successes,
refuting exactly-once.  The code contradicts its own single-use
documentation, so this is a bug in the code, not in the claim. -/
theorem C1_consume_race_two_successes :
    (runConsume2 [⟨1, "user@example.com", true⟩] "tok" [true, false, true, false]
        ([("password_reset:tok", "1", 600)], .ready, .ready)).2
      = (ConsumePhase.finished (some 1), ConsumePhase.finished (some 1)) := by
  decide

/-- Claim C2.  Once a `jti` is on the blacklist — whether put there by logout
or by rotation — it stays there across every later trace of registry
operations, and any rotation attempt presenting it fails with
`AuthenticationFailed`.  (Registry model written from spec §4.2, as the
SimpleJWT machinery is library code outside `src/`; the `SIMPLE_JWT`
rotation/blacklist flags come from `settings/base.py`.) -/
theorem C2_blacklist_permanent (r : TokenRegistry) (jti : String)
    (hmem : jti ∈ r.blacklisted) (ops : List RegistryOp) :
    jti ∈ (applyOps r ops).blacklisted ∧
    ∀ newJti, rotate_refresh true (applyOps r ops) jti newJti
      = .error .authenticationFailed := by
  have hmem' := blacklist_mono_applyOps ops r jti hmem
  exact ⟨hmem', fun newJti => rotate_blacklisted_fails _ jti newJti hmem'⟩

/-- Witness for **C2** at a concrete registry and trace. -/
theorem C2_blacklist_permanent_witness :
    "jti-old" ∈ (applyOps ⟨["jti-old"], ["jti-old"]⟩
        [.register "a", .rotate "b" "c", .logout "d"]).blacklisted ∧
    ∀ newJti, rotate_refresh true (applyOps ⟨["jti-old"], ["jti-old"]⟩
        [.register "a", .rotate "b" "c", .logout "d"]) "jti-old" newJti
      = .error .authenticationFailed :=
  C2_blacklist_permanent ⟨["jti-old"], ["jti-old"]⟩ "jti-old" (by decide)
    [.register "a", .rotate "b" "c", .logout "d"]

/-- Claim C3.  The claim (and the endpoint's own OpenAPI schema,
`openapi_auth_schemas.py` `reset_password_schema`, whose 400 response is
documented as "Invalid or expired token") says an invalid/expired/used
reset token yields HTTP 400.  The code path raises a generic `Exception`
in `complete_password_reset` and `AuthViewSet.reset_password` catches every
exception with `status=500`, code `"12"`: evaluating the view on a valid
body whose token is simply not in the store produces 500, not 400. -/
theorem C3_invalid_token_yields_500 :
    reset_password_view true [⟨1, "user@example.com", true⟩] []
        ⟨some "sometoken", some "Password123", some "Password123"⟩
      = (⟨500, "12"⟩, []) := by
  decide

/-- Claim C4.  The claim says a generate call while the store is unavailable
must fail and never hand out an unstored token.  When the Redis connection
failed at service construction (`self.redis_client = None`),
`generate_reset_token` logs a warning and still returns the token, so the
whole forgot-password flow answers 200 with a token while the store is left
untouched (here: still empty). -/
theorem C4_store_down_returns_unstored_token :
    forgot_password_view false [⟨1, "user@example.com", true⟩] []
        ⟨some "user@example.com"⟩ (List.replicate 32 0)
      = (⟨200, "00"⟩,
         some { message := "Password reset token generated successfully"
                email := "user@example.com"
                token := some "AAAAAAAAAAAAAAAAAAAAAAAAAAAAAAAAAAAAAAAAAAA"
                note := "In production, this token would typically be sent via email instead of returned in response" },
         []) := by
  decide

/-- Claim C5.  The claim (and the endpoint's own OpenAPI schema: the `token`
field is documented "[DEV ONLY] ... (hidden in production)") restricts the
raw token to development responses.  `initiate_password_reset` builds the
response dict with `"token": token` unconditionally — it never consults any
settings flag — so even under the production profile (`DEBUG = False`) the
200 body carries the raw token. -/
theorem C5_token_in_body_under_prod_profile :
    debugFlag .prod = false ∧
    forgot_password_view true [⟨1, "user@example.com", true⟩] []
        ⟨some "user@example.com"⟩ (List.replicate 32 0)
      = (⟨200, "00"⟩,
         some { message := "Password reset token generated successfully"
                email := "user@example.com"
                token := some "AAAAAAAAAAAAAAAAAAAAAAAAAAAAAAAAAAAAAAAAAAA"
                note := "In production, this token would typically be sent via email instead of returned in response" },
         [("password_reset:AAAAAAAAAAAAAAAAAAAAAAAAAAAAAAAAAAAAAAAAAAA", "1", 600)]) := by
  constructor
  · rfl
  · decide

/-- Claim C6.  Sequential single use: for an active user found by
`generate_reset_token`'s own lookup (`hu`), with a user table that resolves
that user's id back to the same row (`hid`), consuming the freshly
generated token returns the user, and an immediately repeated consume of the
same token returns `None`. -/
theorem C6_consume_once_then_none (db : List DjangoUser) (store : RedisStore)
    (email : String) (seed : List Nat) (u : DjangoUser) (t : String) (s1 : RedisStore)
    (hu : lookupActiveByEmail db email = some u)
    (hid : getActiveUserById db u.id = some u)
    (hgen : generate_reset_token true db store email seed = .ok (t, s1)) :
    (verify_and_consume_token true db s1 t).1 = some u ∧
    (verify_and_consume_token true db (verify_and_consume_token true db s1 t).2 t).1
      = none := by
  unfold generate_reset_token at hgen
  rw [hu] at hgen
  simp only [if_pos] at hgen
  have ht : tokenUrlsafe seed = t := congrArg Prod.fst (Except.ok.inj hgen)
  have hs : redisSetex store (token_prefix_str ++ tokenUrlsafe seed) token_ttl (strOfNat u.id)
      = s1 := congrArg Prod.snd (Except.ok.inj hgen)
  subst ht
  subst hs
  have hget := redisGet_setex_self store (token_prefix_str ++ tokenUrlsafe seed)
    token_ttl (strOfNat u.id)
  constructor
  · unfold verify_and_consume_token
    simp [hget, strOfNat_ne_empty u.id, pyInt?_strOfNat, hid]
  · unfold verify_and_consume_token
    simp [hget, strOfNat_ne_empty u.id, pyInt?_strOfNat, hid, redisGet_del_self]

/-- Witness for **C6**: user 1, empty store, the all-zero 32-byte draw. -/
theorem C6_consume_once_then_none_witness :
    (verify_and_consume_token true [⟨1, "user@example.com", true⟩]
        (redisSetex [] (token_prefix_str ++ tokenUrlsafe (List.replicate 32 0))
          token_ttl (strOfNat 1))
        (tokenUrlsafe (List.replicate 32 0))).1
      = some ⟨1, "user@example.com", true⟩ ∧
    (verify_and_consume_token true [⟨1, "user@example.com", true⟩]
        (verify_and_consume_token true [⟨1, "user@example.com", true⟩]
          (redisSetex [] (token_prefix_str ++ tokenUrlsafe (List.replicate 32 0))
            token_ttl (strOfNat 1))
          (tokenUrlsafe (List.replicate 32 0))).2
        (tokenUrlsafe (List.replicate 32 0))).1
      = none :=
  C6_consume_once_then_none [⟨1, "user@example.com", true⟩] [] "user@example.com"
    (List.replicate 32 0) ⟨1, "user@example.com", true⟩
    (tokenUrlsafe (List.replicate 32 0))
    (redisSetex [] (token_prefix_str ++ tokenUrlsafe (List.replicate 32 0))
      token_ttl (strOfNat 1))
    (by decide) (by decide) rfl

/-- A 32-byte seed encodes to a 43-character token
(`⌈32·8/6⌉ = 43`, the `=` padding stripped). -/
theorem tokenUrlsafe_length_32 (seed : List Nat) (hlen : seed.length = 32) :
    (tokenUrlsafe seed).length = 43 := by
  show ((b64Sextets seed).map b64Char).length = 43
  rw [List.length_map, b64Sextets_length, hlen]
  decide

/-- Claim C7.  `generate_reset_token` draws `secrets.token_urlsafe(32)` — the
URL-safe base64 encoding of 32 random bytes, injective on the `2^256` seeds
(so the token carries the full 256 bits of entropy) and consisting of
URL-safe characters only — and stores it under `password_reset:<token>`
with TTL exactly `600` and the user's id rendered as a decimal string. -/
theorem C7_generate_token_entropy_and_storage (db : List DjangoUser) (store : RedisStore)
    (email : String) (seed : List Nat) (u : DjangoUser)
    (hu : lookupActiveByEmail db email = some u)
    (hlen : seed.length = 32) (hbytes : ∀ x ∈ seed, x < 256) :
    generate_reset_token true db store email seed
      = .ok (tokenUrlsafe seed,
             redisSetex store (token_prefix_str ++ tokenUrlsafe seed) 600 (strOfNat u.id)) ∧
    token_ttl = 600 ∧
    token_prefix_str = "password_reset:" ∧
    (tokenUrlsafe seed).length = 43 ∧
    (∀ c ∈ (tokenUrlsafe seed).data, urlSafeChar c = true) ∧
    (∀ seed₂, seed₂.length = 32 → (∀ x ∈ seed₂, x < 256) →
      tokenUrlsafe seed₂ = tokenUrlsafe seed → seed₂ = seed) := by
  refine ⟨?_, rfl, rfl, tokenUrlsafe_length_32 seed hlen, tokenUrlsafe_chars seed hbytes, ?_⟩
  · unfold generate_reset_token
    simp only [hu, if_true]
    rfl
  · intro seed₂ h₂l h₂b heq
    exact tokenUrlsafe_inj seed₂ seed h₂b hbytes heq

/-- Witness for **C7** at the all-zero 32-byte seed. -/
theorem C7_generate_token_entropy_and_storage_witness :
    generate_reset_token true [⟨1, "user@example.com", true⟩] [] "user@example.com"
        (List.replicate 32 0)
      = .ok (tokenUrlsafe (List.replicate 32 0),
             redisSetex [] (token_prefix_str ++ tokenUrlsafe (List.replicate 32 0)) 600
               (strOfNat 1)) ∧
    token_ttl = 600 ∧
    token_prefix_str = "password_reset:" ∧
    (tokenUrlsafe (List.replicate 32 0)).length = 43 ∧
    (∀ c ∈ (tokenUrlsafe (List.replicate 32 0)).data, urlSafeChar c = true) ∧
    (∀ seed₂, seed₂.length = 32 → (∀ x ∈ seed₂, x < 256) →
      tokenUrlsafe seed₂ = tokenUrlsafe (List.replicate 32 0) →
      seed₂ = List.replicate 32 0) :=
  C7_generate_token_entropy_and_storage [⟨1, "user@example.com", true⟩] []
    "user@example.com" (List.replicate 32 0) ⟨1, "user@example.com", true⟩
    (by decide) (by decide) (by decide)

/-- Claim C8.  For an anonymous request, `EmailRateThrottle.get_cache_key`
keys the counter on the md5 of the lowercased-and-stripped email — the email
enters the key only through the hash — and a request with no (or an empty)
email falls back to the address-based `AnonRateThrottle` key, so the allow
decision is then exactly the address-based one; the request is never
rejected for the missing field. -/
theorem C8_email_throttle_key (md5hex : String → String) (scope : String)
    (req : ThrottleRequest) (hanon : req.userEmail = none) :
    (∀ e, req.dataEmail = some e → e ≠ "" →
      email_get_cache_key md5hex scope req
        = some (cache_format scope (md5hex (pyStrip (pyLower e))))) ∧
    (req.dataEmail = none →
      email_get_cache_key md5hex scope req = anon_get_cache_key scope req ∧
      anon_get_cache_key scope req = some (cache_format scope req.addr) ∧
      ∀ (hist : String → Nat) (ceiling : Nat),
        throttleAllow hist ceiling (email_get_cache_key md5hex scope req)
          = throttleAllow hist ceiling (anon_get_cache_key scope req)) := by
  constructor
  · intro e he hne
    simp [email_get_cache_key, hanon, he, hne]
  · intro hdata
    refine ⟨?_, ?_, ?_⟩
    · simp [email_get_cache_key, hanon, hdata]
    · simp [anon_get_cache_key, hanon]
    · intro hist ceiling
      simp [email_get_cache_key, hanon, hdata]

/-- Witness for **C8** on a concrete anonymous request (with a stand-in
hash function, as the key shape is independent of it). -/
theorem C8_email_throttle_key_witness :
    (∀ e, (some " A@b.COM " : Option String) = some e → e ≠ "" →
      email_get_cache_key (fun s => "5d41402abc4b2a76b9719d911017c592") "login"
          ⟨none, some " A@b.COM ", "9.9.9.9"⟩
        = some (cache_format "login"
            ((fun s => "5d41402abc4b2a76b9719d911017c592") (pyStrip (pyLower e))))) ∧
    ((some " A@b.COM " : Option String) = none →
      email_get_cache_key (fun s => "5d41402abc4b2a76b9719d911017c592") "login"
          ⟨none, some " A@b.COM ", "9.9.9.9"⟩
        = anon_get_cache_key "login" ⟨none, some " A@b.COM ", "9.9.9.9"⟩ ∧
      anon_get_cache_key "login" ⟨none, some " A@b.COM ", "9.9.9.9"⟩
        = some (cache_format "login" "9.9.9.9") ∧
      ∀ (hist : String → Nat) (ceiling : Nat),
        throttleAllow hist ceiling
            (email_get_cache_key (fun s => "5d41402abc4b2a76b9719d911017c592") "login"
              ⟨none, some " A@b.COM ", "9.9.9.9"⟩)
          = throttleAllow hist ceiling
              (anon_get_cache_key "login" ⟨none, some " A@b.COM ", "9.9.9.9"⟩)) :=
  C8_email_throttle_key (fun s => "5d41402abc4b2a76b9719d911017c592") "login"
    ⟨none, some " A@b.COM ", "9.9.9.9"⟩ rfl

/-- Claim C9.  Whatever the outcome of the JWT decode, the ORM blacklist write
and the fallback attempt, `logout_user` returns `True` and the authenticated
logout endpoint answers 200 — the dependency failure is swallowed — whereas
reset consumption with the store down fails with an error (no silent
success), and rotation with the registry store down fails closed
(rotation leg from the spec-modelled registry, §4.2). -/
theorem C9_logout_swallows_blacklist_failure (env : LogoutEnv) (r : String)
    (hr : pyStrip r ≠ "") :
    logout_user env = true ∧
    logout_view (some r) env = ⟨200, "00"⟩ ∧
    (∀ (db : List DjangoUser) (store : RedisStore) (token pw : String),
      (complete_password_reset false db store token pw).1
        = .error "Failed to complete password reset: Invalid or expired password reset token") ∧
    (∀ (reg : TokenRegistry) (oldJti newJti : String),
      rotate_refresh false reg oldJti newJti = .error .dependencyUnavailable) := by
  have h1 : logout_user env = true := by
    rcases env with ⟨d, b, f⟩
    cases d with
    | error e => cases f <;> rfl
    | ok v =>
      cases v with
      | none => rfl
      | some j =>
        cases b with
        | succeeded => rfl
        | raised => cases f <;> rfl
  refine ⟨h1, ?_, ?_, ?_⟩
  · simp [logout_view, hr, h1]
  · intro db store token pw
    simp [complete_password_reset, verify_and_consume_token]
  · intro reg oldJti newJti
    simp [rotate_refresh]

/-- Witness for **C9**: every sub-step raising, a non-blank refresh body. -/
theorem C9_logout_swallows_blacklist_failure_witness :
    logout_user ⟨.error "DecodeError", .raised, .raised⟩ = true ∧
    logout_view (some "sometoken") ⟨.error "DecodeError", .raised, .raised⟩ = ⟨200, "00"⟩ ∧
    (∀ (db : List DjangoUser) (store : RedisStore) (token pw : String),
      (complete_password_reset false db store token pw).1
        = .error "Failed to complete password reset: Invalid or expired password reset token") ∧
    (∀ (reg : TokenRegistry) (oldJti newJti : String),
      rotate_refresh false reg oldJti newJti = .error .dependencyUnavailable) :=
  C9_logout_swallows_blacklist_failure ⟨.error "DecodeError", .raised, .raised⟩
    "sometoken" (by decide)

end AuthService
